import Mathlib

/-!
Shallow embedding of `src/app.py`: a four-step RAG workflow built on the
llama_index `Workflow` framework.  The repository's own logic is the
sequencing glue inside `RAGWorkflow` (steps `ingest`, `retrieve`, `rerank`,
`synthesize`) together with the `main` driver that runs the workflow twice.

External library calls (directory loading, embedding, vector indexing,
similarity retrieval, LLM reranking, answer synthesis) are abstracted as an
environment `Env` of uninterpreted functions; the configuration constants the
source passes to those libraries (the embedding model name, the Groq model
name, `similarity_top_k = 2`, `choice_batch_size = 5`, `top_n = 3`,
`streaming = True`) are made explicit arguments so the theorems can speak
about them.
-/

namespace RagApp

/-- Python truthiness of an optional string: `None` and `""` are falsy.
Mirrors the `if not dirname` / `if not query` guards in `app.py`. -/
def pyTruthy : Option String → Bool
  | none => false
  | some s => !(s == "")

/-- Embedding model name passed to `HuggingFaceEmbedding` in `ingest`
(`app.py` line 47). -/
def embedModelName : String := "BAAI/bge-small-en-v1.5"

/-- LLM model name passed to `Groq` in `rerank` and `synthesize`
(`app.py` lines 83 and 97). -/
def groqModelName : String := "llama-3.2-90b-text-preview"

/-- The external services `app.py` delegates to, as uninterpreted functions.
`Doc`, `Index`, `Node`, `Resp` are the (opaque) types of documents, vector
indices, scored nodes and streaming responses. -/
structure Env (Doc Index Node Resp : Type) where
  /-- `SimpleDirectoryReader(dirname).load_data()` (line 44). -/
  loadData : String → List Doc
  /-- `VectorStoreIndex.from_documents(documents, embed_model=...)`
  (lines 45-48); the `String` is the embedding model name. -/
  buildIndex : String → List Doc → Index
  /-- `index.as_retriever(similarity_top_k=k).aretrieve(query)`
  (lines 72-73); the `Nat` is `similarity_top_k`. -/
  asRetrieve : Index → Nat → String → List Node
  /-- `LLMRerank(choice_batch_size=b, top_n=n, llm=Groq(model=m))
  .postprocess_nodes(nodes, query_str=q)` (lines 80-88). -/
  llmRerank : Nat → Nat → String → List Node → Option String → List Node
  /-- `CompactAndRefine(llm=Groq(model=m), streaming=s)
  .asynthesize(q, nodes=ns)` (lines 97-100); the `Bool` is `streaming`. -/
  synthStream : String → Bool → Option String → List Node → Resp

/-- `StartEvent` as used by `app.py`: `ev.get("dirname")`, `ev.get("query")`
and `ev.get("index")` each return `None` when the keyword was not passed. -/
structure StartEvent (Index : Type) where
  dirname : Option String
  query : Option String
  index : Option Index

/-- `class RetrieverEvent(Event): nodes: list[NodeWithScore]` (lines 27-29). -/
structure RetrieverEvent (Node : Type) where
  nodes : List Node

/-- `class RerankEvent(Event): nodes: list[NodeWithScore]` (lines 31-33). -/
structure RerankEvent (Node : Type) where
  nodes : List Node

/-- The (untyped in Python) payload of a `StopEvent.result`: `ingest` stops
with an index, `synthesize` stops with a streaming response. -/
inductive RunResult (Index Resp : Type)
  | index (i : Index)
  | response (r : Resp)
deriving DecidableEq

/-- `StopEvent(result=...)`. -/
structure StopEvent (Index Resp : Type) where
  result : RunResult Index Resp
deriving DecidableEq

/-- The shared workflow `Context` key-value store, restricted to the string
values this program stores.  A fresh context is `[]`; `ctx.set` prepends. -/
abbrev Ctx := List (String × String)

/-- `await ctx.set(k, v)`. -/
def ctxSet (c : Ctx) (k v : String) : Ctx := (k, v) :: c

/-- `await ctx.get(k, default=None)`: the most recently set value for `k`,
or `none`. -/
def ctxGet (c : Ctx) (k : String) : Option String :=
  match c.find? (fun p => p.1 == k) with
  | some p => some p.2
  | none => none

variable {Doc Index Node Resp : Type}

/-- Step `RAGWorkflow.ingest` (lines 37-49).  Takes the context and a
`StartEvent`; returns the (unchanged) context and `StopEvent(result=index)`
when `dirname` is truthy, `None` otherwise. -/
def ingest (env : Env Doc Index Node Resp) (ctx : Ctx) (ev : StartEvent Index) :
    Ctx × Option (StopEvent Index Resp) :=
  let dirname := ev.dirname
  if !(pyTruthy dirname) then
    (ctx, none)
  else
    let documents := env.loadData (dirname.getD "")
    let index := env.buildIndex embedModelName documents
    (ctx, some ⟨RunResult.index index⟩)

/-- Step `RAGWorkflow.retrieve` (lines 51-75).  On a truthy `query` it first
stores the query in the context, then checks the index: `None` when the index
is missing, otherwise a `RetrieverEvent` with the top-2 similarity hits. -/
def retrieve (env : Env Doc Index Node Resp) (ctx : Ctx) (ev : StartEvent Index) :
    Ctx × Option (RetrieverEvent Node) :=
  let query := ev.query
  let index := ev.index
  if !(pyTruthy query) then
    (ctx, none)
  else
    let q := query.getD ""
    let ctx := ctxSet ctx "query" q
    match index with
    | none => (ctx, none)
    | some idx =>
      let nodes := env.asRetrieve idx 2 q
      (ctx, some ⟨nodes⟩)

/-- Step `RAGWorkflow.rerank` (lines 77-91): rerank the retrieved nodes with
`LLMRerank(choice_batch_size=5, top_n=3, llm=Groq(model=...))`, using the
query stored in the context. -/
def rerank (env : Env Doc Index Node Resp) (ctx : Ctx) (ev : RetrieverEvent Node) :
    Ctx × RerankEvent Node :=
  let newNodes := env.llmRerank 5 3 groqModelName ev.nodes (ctxGet ctx "query")
  (ctx, ⟨newNodes⟩)

/-- Step `RAGWorkflow.synthesize` (lines 93-101): stream an answer with
`CompactAndRefine(llm=Groq(model=...), streaming=True)` over the reranked
nodes and the stored query, and stop with the response. -/
def synthesize (env : Env Doc Index Node Resp) (ctx : Ctx) (ev : RerankEvent Node) :
    Ctx × StopEvent Index Resp :=
  let query := ctxGet ctx "query"
  let response := env.synthStream groqModelName true query ev.nodes
  (ctx, ⟨RunResult.response response⟩)

/-- Names of the four workflow steps. -/
inductive StepName
  | ingest
  | retrieve
  | rerank
  | synthesize
deriving DecidableEq, Fintype

/-- The event kinds flowing between steps. -/
inductive EventKind
  | start
  | retrieverEv
  | rerankEv
  | stop
deriving DecidableEq, Fintype

/-- Which step receives which event kind, read off the `@step` signatures:
`ingest : StartEvent → StopEvent | None`, `retrieve : StartEvent →
RetrieverEvent | None`, `rerank : RetrieverEvent → RerankEvent`,
`synthesize : RerankEvent → StopEvent`. -/
def accepts : StepName → EventKind → Bool
  | .ingest, .start => true
  | .retrieve, .start => true
  | .rerank, .retrieverEv => true
  | .synthesize, .rerankEv => true
  | _, _ => false

/-- The event kinds a step can emit, read off the same signatures
(`None` outputs emit nothing). -/
def produces : StepName → List EventKind
  | .ingest => [.stop]
  | .retrieve => [.retrieverEv]
  | .rerank => [.rerankEv]
  | .synthesize => [.stop]

/-- Position of each event kind along the pipeline. -/
def rank : EventKind → Nat
  | .start => 0
  | .retrieverEv => 1
  | .rerankEv => 2
  | .stop => 3

/-- What one `w.run(...)` produces: the ordered list of executed steps, the
final context and the `StopEvent` payload (or `none` when no step stopped). -/
structure RunOutcome (Index Node Resp : Type) where
  trace : List StepName
  finalCtx : Ctx
  result : Option (RunResult Index Resp)

/-- One `w.run(...)` call.  A fresh `Context` is created; the `StartEvent`
is broadcast to both steps that accept it (`ingest` and `retrieve`); a
`StopEvent` ends the run with its payload; a `RetrieverEvent` is consumed by
`rerank` and a `RerankEvent` by `synthesize`. -/
def runWorkflow (env : Env Doc Index Node Resp) (se : StartEvent Index) :
    RunOutcome Index Node Resp :=
  let p1 := ingest env ([] : Ctx) se
  let p2 := retrieve env p1.1 se
  match p1.2 with
  | some stopEv => ⟨[.ingest, .retrieve], p2.1, some stopEv.result⟩
  | none =>
    match p2.2 with
    | none => ⟨[.ingest, .retrieve], p2.1, none⟩
    | some rev =>
      let p3 := rerank env p2.1 rev
      let p4 := synthesize env p3.1 p3.2
      ⟨[.ingest, .retrieve, .rerank, .synthesize], p4.1, some p4.2.result⟩

/-- The `main` coroutine (lines 126-132): run the workflow once with
`dirname="docs"`, then once more with the hard-coded query and the index the
first run returned; the overall value is the second run's result. -/
def mainFlow (env : Env Doc Index Node Resp) : Option (RunResult Index Resp) :=
  let out1 := runWorkflow env ⟨some "docs", none, none⟩
  match out1.result with
  | some (RunResult.index i) =>
    (runWorkflow env
      ⟨none, some "Whats the cash back amount for dental expenses?", some i⟩).result
  | _ => none

/-- A small concrete environment used only to witness the theorems below:
documents, indices, nodes and responses are all `Nat`. -/
def envW : Env Nat Nat Nat Nat where
  loadData := fun d => [d.length]
  buildIndex := fun _ ds => ds.length + 100
  asRetrieve := fun _ k _ => List.range k
  llmRerank := fun _ tn _ ns _ => ns.take tn
  synthStream := fun _ _ _ ns => ns.length

/-- Reading a key other than the one just set looks the rest of the
context up unchanged. -/
theorem ctxGet_ctxSet_ne (c : Ctx) (k k' v : String) (h : k' ≠ k) :
    ctxGet (ctxSet c k v) k' = ctxGet c k' := by
  simp only [ctxGet, ctxSet, List.find?]
  have : (k == k') = false := by
    simp [beq_eq_false_iff_ne]
    exact fun e => h e.symm
  rw [this]

/-- Reading the key just set returns the value just set. -/
theorem ctxGet_ctxSet_same (c : Ctx) (k v : String) :
    ctxGet (ctxSet c k v) k = some v := by
  simp [ctxGet, ctxSet, List.find?]

/-- C1: when `dirname` is absent or falsy the `ingest` step returns `None`
(no `StopEvent`), and when `query` is absent or falsy the `retrieve` step
returns `None` (no `RetrieverEvent`). -/
theorem missing_input_returns_none (env : Env Doc Index Node Resp) (ctx : Ctx)
    (ev : StartEvent Index) :
    (pyTruthy ev.dirname = false → (ingest env ctx ev).2 = none) ∧
    (pyTruthy ev.query = false → (retrieve env ctx ev).2 = none) := by
  constructor
  · intro h
    simp [ingest, h]
  · intro h
    simp [retrieve, h]

/-- C1 witness: on a `StartEvent` with no `dirname`, `ingest` outputs
nothing; on one whose `query` is the empty string, `retrieve` outputs
nothing. -/
theorem missing_input_returns_none_w :
    (ingest envW [] ⟨none, some "q", some 5⟩).2 = (none : Option (StopEvent Nat Nat)) ∧
    (retrieve envW [] ⟨some "docs", some "", some 5⟩).2 = (none : Option (RetrieverEvent Nat)) :=
  ⟨(missing_input_returns_none envW [] ⟨none, some "q", some 5⟩).1 rfl,
   (missing_input_returns_none envW [] ⟨some "docs", some "", some 5⟩).2 (by decide)⟩

/-- C4: on a `StartEvent` with a non-empty `query` and a present `index`,
`retrieve` asks the index for the top-K hits with K fixed at 2 and emits a
`RetrieverEvent` holding exactly that result; when the external retriever
honours its `similarity_top_k` bound, that is at most 2 nodes. -/
theorem retrieve_topk (env : Env Doc Index Node Resp) (ctx : Ctx)
    (se : StartEvent Index) (q : String) (idx : Index)
    (hq : se.query = some q) (hne : q ≠ "") (hi : se.index = some idx)
    (hk : ∀ i k s, (env.asRetrieve i k s).length ≤ k) :
    (retrieve env ctx se).2 = some ⟨env.asRetrieve idx 2 q⟩ ∧
    (env.asRetrieve idx 2 q).length ≤ 2 := by
  refine ⟨?_, hk idx 2 q⟩
  simp [retrieve, hq, hi, pyTruthy, hne]

/-- C4 witness: a concrete retrieval through `envW` yields exactly
`envW.asRetrieve 5 2 "q" = [0, 1]`, two nodes. -/
theorem retrieve_topk_w :
    (retrieve envW [] ⟨none, some "q", some 5⟩).2 = some ⟨[0, 1]⟩ ∧
    ([0, 1] : List Nat).length ≤ 2 := by
  have h := retrieve_topk envW [] ⟨none, some "q", some 5⟩ "q" 5 rfl
    (by decide) rfl (by intro i k s; simp [envW])
  exact ⟨h.1, by decide⟩

/-- C5: `rerank` hands the retrieved nodes and the query stored in the
context to the LLM reranker configured with `choice_batch_size = 5` and
`top_n = 3`, and its `RerankEvent` carries exactly the reranker's output. -/
theorem rerank_uses_llm (env : Env Doc Index Node Resp) (ctx : Ctx)
    (ev : RetrieverEvent Node) :
    (rerank env ctx ev).2.nodes =
      env.llmRerank 5 3 groqModelName ev.nodes (ctxGet ctx "query") := rfl

/-- C7: `synthesize` calls the summarizer with `streaming = true` on the
stored query and the reranked nodes, and stops with the streamed response
object as the run result. -/
theorem synthesize_streams (env : Env Doc Index Node Resp) (ctx : Ctx)
    (ev : RerankEvent Node) :
    (synthesize env ctx ev).2.result =
      RunResult.response
        (env.synthStream groqModelName true (ctxGet ctx "query") ev.nodes) := rfl

/-- C8: on a non-empty `query` but a missing `index`, `retrieve` emits no
event, yet the context it returns already holds the query: the write happens
before the index check, so the failing path does not leave the state
unchanged. -/
theorem retrieve_no_index_mutates (env : Env Doc Index Node Resp) (ctx : Ctx)
    (se : StartEvent Index) (q : String)
    (hq : se.query = some q) (hne : q ≠ "") (hi : se.index = none) :
    retrieve env ctx se = (ctxSet ctx "query" q, none) ∧
    ctxSet ctx "query" q ≠ ctx := by
  constructor
  · simp [retrieve, hq, hi, pyTruthy, hne]
  · intro h
    have := congrArg List.length h
    simp [ctxSet] at this

/-- C8 witness: a concrete query-only `StartEvent` yields no event but a
context now holding the query. -/
theorem retrieve_no_index_mutates_w :
    retrieve envW [] ⟨none, some "q", none⟩ = ([("query", "q")], none) ∧
    ([("query", "q")] : Ctx) ≠ [] := by
  have h := retrieve_no_index_mutates envW [] ⟨none, some "q", none⟩ "q" rfl
    (by decide) rfl
  exact ⟨h.1, h.2⟩

/-- C2: every run is linear: the executed steps are a duplicate-free prefix
pattern of the fixed order ingest, retrieve, rerank, synthesize (so no step
runs twice and there are no cycles or retries), and the dispatch graph is
acyclic: every event a step can emit lies strictly later in the pipeline
than the event it consumes, so no state offers a branch back. -/
theorem linear_four_steps (env : Env Doc Index Node Resp) (se : StartEvent Index) :
    List.Sublist (runWorkflow env se).trace
      [StepName.ingest, StepName.retrieve, StepName.rerank, StepName.synthesize] ∧
    (runWorkflow env se).trace.Nodup ∧
    (∀ s e e2, accepts s e = true → e2 ∈ produces s → rank e < rank e2) := by
  have htr : (runWorkflow env se).trace =
      [StepName.ingest, StepName.retrieve] ∨
      (runWorkflow env se).trace =
      [StepName.ingest, StepName.retrieve, StepName.rerank, StepName.synthesize] := by
    rcases h1 : (ingest env ([] : Ctx) se).2 with _ | stopEv
    · rcases h2 : (retrieve env (ingest env ([] : Ctx) se).1 se).2 with _ | rev
      · left
        simp [runWorkflow, h1, h2]
      · right
        simp [runWorkflow, h1, h2]
    · left
      simp [runWorkflow, h1]
  refine ⟨?_, ?_, by decide⟩
  · rcases htr with h | h <;> (rw [h]; all_goals decide)
  · rcases htr with h | h <;> (rw [h]; all_goals decide)

/-- C2 witness: the query run executes the four steps once each in order,
and the dispatch graph moves strictly forward at `ingest`. -/
theorem linear_four_steps_w :
    List.Sublist (runWorkflow envW ⟨none, some "q", some 5⟩).trace
      [StepName.ingest, StepName.retrieve, StepName.rerank, StepName.synthesize] ∧
    rank EventKind.start < rank EventKind.stop :=
  ⟨(linear_four_steps envW ⟨none, some "q", some 5⟩).1,
   (linear_four_steps envW ⟨none, some "q", some 5⟩).2.2
     StepName.ingest EventKind.start EventKind.stop rfl (by decide)⟩

/-- C3: on a query run (no `dirname`, a non-empty `query`, an `index`), the
pipeline chains ingest → retrieve → rerank → synthesize: the reranker
receives exactly the retriever's nodes, the summarizer receives exactly the
reranker's nodes, and the run result is the `StopEvent` payload produced by
`synthesize`. -/
theorem pipeline_chained (env : Env Doc Index Node Resp) (se : StartEvent Index)
    (q : String) (idx : Index)
    (hd : pyTruthy se.dirname = false) (hq : se.query = some q) (hne : q ≠ "")
    (hi : se.index = some idx) :
    (runWorkflow env se).result =
      some (RunResult.response
        (env.synthStream groqModelName true (some q)
          (env.llmRerank 5 3 groqModelName (env.asRetrieve idx 2 q) (some q)))) := by
  have h1 : ingest env ([] : Ctx) se = ([], none) := by
    simp [ingest, hd]
  have h2 : retrieve env ([] : Ctx) se =
      (ctxSet [] "query" q, some (⟨env.asRetrieve idx 2 q⟩ : RetrieverEvent Node)) := by
    simp [retrieve, hq, hi, pyTruthy, hne]
  simp [runWorkflow, h1, h2, rerank, synthesize, ctxGet_ctxSet_same]

/-- C3 witness: the whole chain evaluated in the concrete environment:
retrieval returns `[0, 1]`, reranking keeps them, synthesis counts them. -/
theorem pipeline_chained_w :
    (runWorkflow envW ⟨none, some "q", some 5⟩).result =
      some (RunResult.response 2) := by
  have h := pipeline_chained envW ⟨none, some "q", some 5⟩ "q" 5 rfl rfl
    (by decide) rfl
  rw [h]
  rfl

/-- C6: on a `StartEvent` with a non-empty `dirname`, the run loads the
documents of that directory, builds the vector index over them with the
configured embedding model, and stops with that index as the run result. -/
theorem ingest_builds_index (env : Env Doc Index Node Resp)
    (se : StartEvent Index) (d : String) (hd : se.dirname = some d) (hne : d ≠ "") :
    (runWorkflow env se).result =
      some (RunResult.index (env.buildIndex embedModelName (env.loadData d))) := by
  have h1 : ingest env ([] : Ctx) se =
      ([], some ⟨RunResult.index (env.buildIndex embedModelName (env.loadData d))⟩) := by
    simp [ingest, hd, pyTruthy, hne]
  simp [runWorkflow, h1]

/-- C6 witness: ingesting `"docs"` through the concrete environment stops
with the index built from its one loaded document. -/
theorem ingest_builds_index_w :
    (runWorkflow envW ⟨some "docs", none, none⟩).result =
      some (RunResult.index 101) := by
  have h := ingest_builds_index envW ⟨some "docs", none, none⟩ "docs" rfl
    (by decide)
  rw [h]
  rfl

/-- C9: only `retrieve` writes to the shared context, and only under the key
`"query"`: `ingest`, `rerank` and `synthesize` return the context unchanged,
`retrieve` preserves every key other than `"query"`, and after a successful
query check `"query"` holds exactly the query `retrieve` stored. -/
theorem context_frame (env : Env Doc Index Node Resp) (ctx : Ctx) :
    (∀ ev : StartEvent Index, (ingest env ctx ev : Ctx × Option (StopEvent Index Resp)).1 = ctx) ∧
    (∀ ev : RetrieverEvent Node, (rerank env ctx ev).1 = ctx) ∧
    (∀ ev : RerankEvent Node, (synthesize env ctx ev : Ctx × StopEvent Index Resp).1 = ctx) ∧
    (∀ (se : StartEvent Index) (k : String), k ≠ "query" →
      ctxGet ((retrieve env ctx se).1) k = ctxGet ctx k) ∧
    (∀ (se : StartEvent Index) (q : String), se.query = some q → q ≠ "" →
      ctxGet ((retrieve env ctx se).1) "query" = some q) := by
  refine ⟨fun ev => ?_, fun ev => rfl, fun ev => rfl, fun se k hk => ?_, fun se q hq hne => ?_⟩
  · rcases h : pyTruthy ev.dirname <;> simp [ingest, h]
  · rcases h : pyTruthy se.query with _ | _
    · simp [retrieve, h]
    · rcases hq : se.query with _ | q
      · rw [hq] at h
        simp [pyTruthy] at h
      · rw [hq] at h
        rcases hi : se.index with _ | idx <;>
          simp [retrieve, h, hq, hi, ctxGet_ctxSet_ne ctx "query" k _ hk]
  · have h : pyTruthy (some q) = true := by
      simp [pyTruthy, hne]
    rcases hi : se.index with _ | idx <;>
      simp [retrieve, h, hq, hi, ctxGet_ctxSet_same]

/-- C9 witness: with a pre-existing entry `("a", "b")`, a query run's
`retrieve` leaves `"a"` untouched and stores the query under `"query"`,
while `ingest` returns the context unchanged. -/
theorem context_frame_w :
    (ingest envW [("a", "b")] ⟨some "docs", none, none⟩ :
        Ctx × Option (StopEvent Nat Nat)).1 = [("a", "b")] ∧
    ctxGet ((retrieve envW [("a", "b")] ⟨none, some "q", some 5⟩).1) "a" = some "b" ∧
    ctxGet ((retrieve envW [("a", "b")] ⟨none, some "q", some 5⟩).1) "query" = some "q" := by
  have h := context_frame envW [("a", "b")]
  refine ⟨h.1 ⟨some "docs", none, none⟩, ?_, ?_⟩
  · rw [h.2.2.2.1 ⟨none, some "q", some 5⟩ "a" (by decide)]
    rfl
  · exact h.2.2.2.2 ⟨none, some "q", some 5⟩ "q" rfl (by decide)

end RagApp
